import Mathlib

/-!
# Verification of the KP_PTPN cost-report extraction engine

Shallow embedding of the period/column resolution, row-extraction and
coverage-validation core of the repository (modules/cost/excel_reader.py,
modules/cost/column_detector.py, modules/cost/validator.py), together with
theorems settling the specification claims.

Vocabulary correspondence between the spec and the source: the spec's
"Actual"/"Budget" value types are the source's `REAL`/`RKAP` tokens, the
spec's "Month"/"Cumulative" period kinds are the source's `bulan`/`s.d.`
types, and month names follow the source's Indonesian vocabulary
(`MONTH_MAP`, e.g. December = "Desember", abbreviation "des").

Python strings are embedded as `String`/`List Char`; Python `float` cell
amounts as `ℚ`; Python dictionaries as association lists with the source's
insertion/overwrite behaviour made explicit.
-/

namespace PTPN

/-! ## Basic string machinery

`firstOccur key t` is the position of the first occurrence of `key` as a
contiguous substring of `t` — the embedding of Python's `str.find` /
`in` operator used by `_extract_month` and `_is_sd_header`. -/

def firstOccur (key : List Char) : List Char → Option Nat
  | [] => if key.isPrefixOf ([] : List Char) then some 0 else none
  | c :: ts =>
    if key.isPrefixOf (c :: ts) then some 0
    else (firstOccur key ts).map (· + 1)

/-- Python's `key in text` substring test. -/
def containsSub (key t : List Char) : Bool :=
  (firstOccur key t).isSome

/-- Python `str.lower()` restricted to the ASCII texts the source handles. -/
def lowerChars (t : List Char) : List Char :=
  t.map Char.toLower

/-- Python `str.upper()` restricted to the ASCII texts the source handles. -/
def upperChars (t : List Char) : List Char :=
  t.map Char.toUpper

/-- Python `str.strip()`: remove surrounding whitespace. -/
def stripChars (t : List Char) : List Char :=
  ((t.dropWhile Char.isWhitespace).reverse.dropWhile Char.isWhitespace).reverse

/-- Python `str.strip()` at the `String` level. -/
def stripStr (s : String) : String :=
  ⟨stripChars s.data⟩

/-! ## Row Extractor cell coercion (excel_reader.py, `get_cell_value`)

Cell values are modelled as the tagged union {empty, number, text}: the
only shapes flowing through `get_cell_value` (openpyxl yields `None`,
numbers, or strings for the data cells this path reads).

`parseDecimal` models Python's `float()` applied to the cleaned string,
restricted to plain decimal literals (optional sign, digits, at most one
point) — the shapes occurring in these reports; scientific notation and
special values are not modelled. A parse failure models the
`ValueError` that `get_cell_value` catches. -/

inductive CellValue where
  | empty : CellValue
  | num : ℚ → CellValue
  | text : String → CellValue
deriving DecidableEq

/-- Numeric value of a digit run (already checked to be all digits). -/
def digitsVal (t : List Char) : Nat :=
  t.foldl (fun a c => 10 * a + (c.toNat - 48)) 0

/-- Unsigned decimal literal: `"12"`, `"12."`, `".5"`, `"12.5"`. -/
def parseUnsigned (t : List Char) : Option ℚ :=
  let intPart := t.takeWhile Char.isDigit
  let rest := t.dropWhile Char.isDigit
  match rest with
  | [] => if intPart = [] then none else some (digitsVal intPart)
  | '.' :: frac =>
    if frac.all Char.isDigit ∧ (intPart ≠ [] ∨ frac ≠ []) then
      some ((digitsVal intPart : ℚ) + (digitsVal frac : ℚ) / ((10 : ℚ) ^ frac.length))
    else none
  | _ => none

/-- Python `float()` on a plain decimal literal, with optional sign. -/
def parseDecimal : List Char → Option ℚ
  | '+' :: t => parseUnsigned t
  | '-' :: t => (parseUnsigned t).map (fun q => -q)
  | t => parseUnsigned t

/-- The cleaning applied by `get_cell_value` to string cells:
`value.replace(',', '').replace(' ', '').strip()`. -/
def cleanCell (s : String) : List Char :=
  stripChars ((s.data.filter (· ≠ ',')).filter (· ≠ ' '))

/-- `ExcelReader.get_cell_value`: coerce a cell to a float, never raising.
The second component records whether the warning branch (the
`except` clause substituting `0.0`) fired. -/
def get_cell_value (v : CellValue) : ℚ × Bool :=
  match v with
  | .empty => (0, false)
  | .num q => (q, false)
  | .text s =>
    let cleaned := cleanCell s
    if cleaned = [] ∨ cleaned = ['-'] then (0, false)
    else
      match parseDecimal cleaned with
      | some q => (q, false)
      | none => (0, true)

/-! ## Coverage Validator (validator.py)

`config/cost.json` is external configuration, not part of the sources:
the `perusahaan` table that `ConfigLoader.get_perusahaan()` yields is
therefore a parameter — a list of entries, each with its config key and
its `kode_perusahaan` / `nama` fields, in the JSON object's order. -/

structure Perusahaan where
  configKey : String
  kode : String
  nama : String
deriving DecidableEq

/-- Lookup in the `data_code_to_config_key` dict built by
`validate_company_coverage`: entries with an empty `kode_perusahaan` are
not inserted, and a later entry with the same `kode` overwrites an
earlier one (Python dict assignment), hence the last match wins. -/
def lookupCode (cfg : List Perusahaan) (code : String) : Option String :=
  cfg.foldl (fun acc p => if p.kode ≠ "" ∧ p.kode = code then some p.configKey else acc) none

/-- The set (as a duplicate-free list) of config keys reached from the
batch's distinct `kode_perusahaan` values — the source's
`processed_config_keys`. Unknown data codes are dropped (only logged). -/
def processedKeys (cfg : List Perusahaan) (batch : List String) : List String :=
  (batch.dedup.filterMap (lookupCode cfg)).dedup

/-- `validate_company_coverage`: returns
`(processed_count, missing_config_keys, config_key_to_name)`.
`missing_config_keys = sorted(set(expected) - processed_config_keys)`;
Python's `sorted` on strings (stable, lexicographic by code point) is
modelled by a stable sort under Mathlib's lexicographic `≤` on
`String`. -/
def validate_company_coverage (cfg : List Perusahaan) (batch : List String)
    (expected : List String) : Nat × List String × List (String × String) :=
  let processed := processedKeys cfg batch
  let missing := ((expected.dedup).filter (fun k => ¬ processed.contains k)).insertionSort (· ≤ ·)
  (processed.length, missing, cfg.map (fun p => (p.configKey, p.nama)))

/-- `determine_status`: the tri-state health status from a coverage
percentage. -/
def determine_status (coverage : ℚ) : String :=
  if coverage < 90 then "failed"
  else if coverage < 100 then "warning"
  else "success"

/-- The fields of `ValidationResult` that `validate_upload` fills in. -/
structure ValidationResult where
  total_companies : Nat
  processed_companies : Nat
  missing_companies : List String
  company_coverage_percent : ℚ
  status : String
deriving DecidableEq

/-- `validate_upload`: coverage validation of a batch (the
`kode_perusahaan` column of the extracted dataframe) against the expected
config keys. The coverage percent stays at its initial `0.0` when
`total_companies = 0`. -/
def validate_upload (cfg : List Perusahaan) (batch : List String)
    (expected : List String) : ValidationResult :=
  let total := expected.length
  let r := validate_company_coverage cfg batch expected
  let coverage : ℚ := if total > 0 then (r.1 : ℚ) / (total : ℚ) * 100 else 0
  { total_companies := total
    processed_companies := r.1
    missing_companies := r.2.1
    company_coverage_percent := coverage
    status := determine_status coverage }

/-! ## Header Parser (excel_reader.py)

A worksheet is embedded at the abstraction the detector reads it:
the merged ranges of the period header row (row 7) with each range's
start column, end column and top-left cell text, and the cell texts of
the value-type header row (row 8) for columns `1..typeRow.length`
(`typeRow.length` models `sheet.max_column`). -/

structure MergedRange where
  startCol : Nat
  endCol : Nat
  text : String
deriving DecidableEq

structure Sheet where
  periodRow : List MergedRange
  typeRow : List String
deriving DecidableEq

/-- `ExcelReader.MONTH_MAP`: the closed vocabulary of month-name
abbreviations, in the source's insertion order. -/
def MONTH_MAP : List (String × Nat) :=
  [("jan", 1), ("feb", 2), ("mar", 3), ("apr", 4), ("mei", 5), ("juni", 6),
   ("juli", 7), ("agst", 8), ("sept", 9), ("okt", 10), ("nov", 11), ("des", 12)]

/-- The `(month, position)` pairs collected by `_extract_month`: every
vocabulary entry occurring in the lowercased text, with its first
occurrence offset. -/
def foundMonths (t : List Char) : List (Nat × Nat) :=
  let tl := lowerChars t
  MONTH_MAP.filterMap fun km => (firstOccur km.1.data tl).map fun p => (km.2, p)

/-- `ExcelReader._extract_month`: stable-sort the found months by
position (Python `list.sort(key=...)`) and take the first. -/
def extract_month (t : List Char) : Option Nat :=
  match (foundMonths t).insertionSort (fun a b => a.2 ≤ b.2) with
  | [] => none
  | x :: _ => some x.1

/-- Match of the regex `20\d{2}` at the head of the text: the year value
when the first four characters are `2`, `0` and two digits. -/
def yearAt : List Char → Option Nat
  | '2' :: '0' :: a :: b :: _ =>
    if a.isDigit ∧ b.isDigit then some (2000 + 10 * (a.toNat - 48) + (b.toNat - 48))
    else none
  | _ => none

/-- `ExcelReader._extract_year`: `re.search(r'20\d{2}', text)` — the
leftmost window matching the pattern, scanning positions left to right. -/
def extract_year : List Char → Option Nat
  | [] => none
  | c :: ts =>
    match yearAt (c :: ts) with
    | some y => some y
    | none => extract_year ts

/-- `ExcelReader._is_sd_header`: the fixed "up-to-date" phrasings. -/
def sd_patterns : List String :=
  ["s.d.", "s.d ", "s/d", "sd.", "sampai dengan", "sampai"]

def is_sd_header (t : String) : Bool :=
  sd_patterns.any fun p => containsSub p.data (lowerChars t.data)

/-- A period descriptor as assembled by `parse_period_header`:
`isSd = true` is the source's type `'s.d.'` (the spec's Cumulative kind),
`isSd = false` its type `'bulan'` (the spec's Month kind). -/
structure PeriodHeader where
  isSd : Bool
  text : String
  startCol : Nat
  endCol : Nat
  month : Nat
  year : Nat
deriving DecidableEq

/-- `ExcelReader.parse_period_header`: for every merged range of the
period row, take the stripped top-left text, skip it when empty or when
month or year extraction fails, classify as `s.d.`/`bulan`, and sort the
survivors by start column (Python's stable `list.sort`). Raises
(`Except.error`) when no descriptor is found. -/
def parse_period_header (s : Sheet) : Except String (List PeriodHeader) :=
  let headers := s.periodRow.filterMap fun r =>
    let t := stripStr r.text
    if t = "" then none
    else
      match extract_month t.data, extract_year t.data with
      | some m, some y =>
        some { isSd := is_sd_header t, text := t, startCol := r.startCol,
               endCol := r.endCol, month := m, year := y }
      | _, _ => none
  let sorted := headers.insertionSort (fun a b => a.startCol ≤ b.startCol)
  if sorted.isEmpty then .error "No period headers found" else .ok sorted

/-- The two value types of the type header row: the source's `REAL`
(the spec's Actual) and `RKAP` (the spec's Budget). -/
inductive VType where
  | REAL : VType
  | RKAP : VType
deriving DecidableEq

/-- `ExcelReader.parse_type_header`: scan columns `1..max_column`; strip
and uppercase each cell text; classify as `REAL` if it contains the
`REAL` token, else as `RKAP` if it contains the `RKAP` token. The result
embeds the source's `{column: type}` dict as an association list in
ascending column order. Raises when the mapping is empty. -/
def parse_type_header (s : Sheet) : Except String (List (Nat × VType)) :=
  let mapping := (List.range s.typeRow.length).filterMap fun i =>
    let text := upperChars (stripChars (s.typeRow.getD i "").data)
    if text = [] then none
    else if containsSub "REAL".data text then some (i + 1, VType.REAL)
    else if containsSub "RKAP".data text then some (i + 1, VType.RKAP)
    else none
  if mapping.isEmpty then .error "No REAL/RKAP headers found" else .ok mapping

/-! ## Column Detector (column_detector.py) -/

/-- `max(self.type_headers.keys())`, used as the upper bound of the
fallback scan (the mapping is nonempty at the call site). -/
def maxKey (th : List (Nat × VType)) : Nat :=
  (th.map Prod.fst).foldl max 0

/-- The REAL/RKAP slots filled by `_get_columns_in_range`'s dict. -/
structure RangeCols where
  real : Option Nat
  rkap : Option Nat
deriving DecidableEq

/-- One iteration of `_get_columns_in_range`'s loop:
`cols[type_name] = col` overwrites any earlier column of that type. -/
def rangeStep (th : List (Nat × VType)) (acc : RangeCols) (col : Nat) : RangeCols :=
  match th.lookup col with
  | some .REAL => { acc with real := some col }
  | some .RKAP => { acc with rkap := some col }
  | none => acc

/-- `ColumnDetector._get_columns_in_range`: scan
`range(start_col, end_col + 1)` recording the column of each value type
found, later columns overwriting earlier ones. -/
def get_columns_in_range (th : List (Nat × VType)) (startCol endCol : Nat) : RangeCols :=
  (List.range' startCol (endCol + 1 - startCol)).foldl (rangeStep th) ⟨none, none⟩

/-- The fallback loop of `_map_columns`: walk the candidate columns
keeping the first `REAL` and the first `RKAP` encountered, breaking once
both are found. -/
def findNextCols (th : List (Nat × VType)) :
    List Nat → Option Nat → Option Nat → Option Nat × Option Nat
  | [], r, k => (r, k)
  | c :: cs, r, k =>
    let r' := if th.lookup c = some .REAL ∧ r = none then some c else r
    let k' := if th.lookup c = some .RKAP ∧ k = none then some c else k
    if r'.isSome ∧ k'.isSome then (r', k') else findNextCols th cs r' k'

/-- The column list scanned by the fallback:
`range(bulan_end + 1, max(type_headers.keys()) + 1)`. -/
def fallbackCols (th : List (Nat × VType)) (bulanEnd : Nat) : List Nat :=
  List.range' (bulanEnd + 1) (maxKey th + 1 - (bulanEnd + 1))

/-- The four logical columns assembled by `_map_columns`, each possibly
unresolved. -/
structure Columns where
  realBulanIni : Option Nat
  rkapBulanIni : Option Nat
  realSd : Option Nat
  rkapSd : Option Nat
deriving DecidableEq

/-- `ColumnDetector._map_columns`: intersect the matched `bulan` range
with the type map; for the cumulative pair use the matched `s.d.` range
when present, otherwise fall back to scanning forward from the `bulan`
end column. -/
def map_columns (bulan : PeriodHeader) (sd : Option PeriodHeader)
    (th : List (Nat × VType)) : Columns :=
  let bc := get_columns_in_range th bulan.startCol bulan.endCol
  match sd with
  | some sdh =>
    let sc := get_columns_in_range th sdh.startCol sdh.endCol
    ⟨bc.real, bc.rkap, sc.real, sc.rkap⟩
  | none =>
    let nk := findNextCols th (fallbackCols th bulan.endCol) none none
    ⟨bc.real, bc.rkap, nk.1, nk.2⟩

/-- The fully resolved column mapping (`REAL_BULAN_INI`,
`RKAP_BULAN_INI`, `REAL_SD`, `RKAP_SD` — the spec's actual_month,
budget_month, actual_cumulative, budget_cumulative). -/
structure ColumnMapping where
  realBulanIni : Nat
  rkapBulanIni : Nat
  realSd : Nat
  rkapSd : Nat
deriving DecidableEq

/-- The `missing` list of `_validate_columns`: the names, in the fixed
required order, of the logical columns still `None`. -/
def missingColumns (c : Columns) : List String :=
  ([("REAL_BULAN_INI", c.realBulanIni), ("RKAP_BULAN_INI", c.rkapBulanIni),
    ("REAL_SD", c.realSd), ("RKAP_SD", c.rkapSd)]).filterMap
    fun p => if p.2 = none then some p.1 else none

instance {ε α : Type} [DecidableEq ε] [DecidableEq α] : DecidableEq (Except ε α) := fun x y =>
  match x, y with
  | .error a, .error b =>
    if h : a = b then isTrue (by rw [h]) else isFalse (fun hc => by cases hc; exact h rfl)
  | .error _, .ok _ => isFalse (fun hc => by cases hc)
  | .ok _, .error _ => isFalse (fun hc => by cases hc)
  | .ok a, .ok b =>
    if h : a = b then isTrue (by rw [h]) else isFalse (fun hc => by cases hc; exact h rfl)

/-- The failures `detect_columns` raises, with the diagnostic payload
each message carries. -/
inductive DetectError where
  | headerParse : String → DetectError
  | periodNotFound : List (Nat × Nat × String) → DetectError
  | columnsMissing : List String → DetectError
deriving DecidableEq

/-- `ColumnDetector._validate_columns` combined with the successful
return: error naming the missing logical columns, or the four resolved
columns. -/
def validate_columns (c : Columns) : Except DetectError ColumnMapping :=
  match c with
  | ⟨some a, some b, some r, some k⟩ => .ok ⟨a, b, r, k⟩
  | c => .error (.columnsMissing (missingColumns c))

/-- Does this period descriptor match the target as the `bulan` kind? -/
def isBulanMatch (ty tm : Nat) (p : PeriodHeader) : Bool :=
  p.year = ty ∧ p.month = tm ∧ p.isSd = false

/-- Does this period descriptor match the target as the `s.d.` kind? -/
def isSdMatch (ty tm : Nat) (p : PeriodHeader) : Bool :=
  p.year = ty ∧ p.month = tm ∧ p.isSd = true

/-- The `available` diagnostic list built when no `bulan` match exists:
`(year, month, text)` of every `bulan`-kind descriptor. -/
def availablePeriods (ps : List PeriodHeader) : List (Nat × Nat × String) :=
  ps.filterMap fun p => if p.isSd then none else some (p.year, p.month, p.text)

/-- `ColumnDetector.detect_columns` for a target `(year, month)` (the
source receives the period as a `'YYYY-MM'` string and splits it with
`strptime`; the split pair is taken as input here). The first matching
`bulan` and `s.d.` descriptors in start-column order are selected (the
source's first-match loop over the sorted descriptor list). -/
def detect_columns (s : Sheet) (ty tm : Nat) : Except DetectError ColumnMapping :=
  match parse_period_header s with
  | .error e => .error (.headerParse e)
  | .ok ps =>
    match parse_type_header s with
    | .error e => .error (.headerParse e)
    | .ok th =>
      match ps.find? (isBulanMatch ty tm) with
      | none => .error (.periodNotFound (availablePeriods ps))
      | some bulan =>
        validate_columns (map_columns bulan (ps.find? (isSdMatch ty tm)) th)

/-! ## Concrete fixtures used by the claim theorems -/

/-- The end-to-end scenario worksheet: a merged Month header for
December 2024 (source vocabulary: "Desember 2024") spanning columns
5–6, the value-type row reading Actual/Budget (source: REAL/RKAP) at
columns 5–6, no Cumulative (`s.d.`) header, unclassified columns 7–8,
and Actual/Budget again at columns 9–10. -/
def sheetDesember : Sheet :=
  { periodRow := [⟨5, 6, "Desember 2024"⟩]
    typeRow := ["", "", "", "", "REAL", "RKAP", "", "", "REAL", "RKAP"] }

/-- A worksheet whose only recognized period header is Cumulative-kind
(`s.d.`): requesting any period yields a period-not-found failure whose
list of available Month-kind periods is empty. -/
def sheetCumulativeOnly : Sheet :=
  { periodRow := [⟨5, 6, "s.d. Des 2024"⟩]
    typeRow := ["REAL"] }

/-- A two-company configuration (config keys `A`, `B`; data codes
`K1`, `K2`). -/
def cfgTwo : List Perusahaan :=
  [⟨"A", "K1", "Alpha"⟩, ⟨"B", "K2", "Beta"⟩]

/-- A ten-company configuration (config keys `A01`–`A10`; data codes
`K01`–`K10`). -/
def cfgTen : List Perusahaan :=
  [⟨"A01", "K01", "N01"⟩, ⟨"A02", "K02", "N02"⟩, ⟨"A03", "K03", "N03"⟩,
   ⟨"A04", "K04", "N04"⟩, ⟨"A05", "K05", "N05"⟩, ⟨"A06", "K06", "N06"⟩,
   ⟨"A07", "K07", "N07"⟩, ⟨"A08", "K08", "N08"⟩, ⟨"A09", "K09", "N09"⟩,
   ⟨"A10", "K10", "N10"⟩]

def expectedTen : List String :=
  ["A01", "A02", "A03", "A04", "A05", "A06", "A07", "A08", "A09", "A10"]

def batchEight : List String :=
  ["K01", "K02", "K03", "K04", "K05", "K06", "K07", "K08"]

def batchNine : List String :=
  ["K01", "K02", "K03", "K04", "K05", "K06", "K07", "K08", "K09"]

def batchTen : List String :=
  ["K01", "K02", "K03", "K04", "K05", "K06", "K07", "K08", "K09", "K10"]

/-! ## Claim theorems -/

/-- C2: for a worksheet with a merged Month header "December 2024"
(source vocabulary "Desember 2024") spanning columns 5–6, the value-type
row reading Actual ("REAL") at column 5 and Budget ("RKAP") at column 6,
no Cumulative header, unclassified columns 7–8 and Actual/Budget at
columns 9–10, requesting target period (2024, 12) yields the mapping
actual_month = 5, budget_month = 6, actual_cumulative = 9,
budget_cumulative = 10. -/
theorem C2_end_to_end_detection :
    detect_columns sheetDesember 2024 12 = .ok ⟨5, 6, 9, 10⟩ := by
  decide

/-- C9: when the expected organizational-unit set is empty,
`validate_upload` returns total_companies 0, coverage_percent 0 and
status `'failed'` — never `'success'` — regardless of the batch. -/
theorem C9_empty_expected_fails (cfg : List Perusahaan) (batch : List String) :
    (validate_upload cfg batch []).total_companies = 0
    ∧ (validate_upload cfg batch []).company_coverage_percent = 0
    ∧ (validate_upload cfg batch []).status = "failed"
    ∧ (validate_upload cfg batch []).status ≠ "success" := by
  refine ⟨rfl, ?_, ?_, ?_⟩ <;>
    simp [validate_upload, determine_status]

/-- C4: the Row Extractor's cell coercion always yields a number and
never raises (it is a total function into `ℚ × Bool`): an empty cell
coerces to 0; a numeric cell coerces to its value unchanged; a text
cell has commas and spaces removed and surrounding whitespace stripped,
with `""` and a lone `"-"` coercing to 0 (so `"1,234.50"` coerces to
1234.50); and any remaining text that fails to parse as a decimal
coerces to 0 with the warning flag recorded. -/
theorem C4_cell_coercion :
    get_cell_value .empty = (0, false)
    ∧ (∀ q : ℚ, get_cell_value (.num q) = (q, false))
    ∧ get_cell_value (.text "") = (0, false)
    ∧ get_cell_value (.text "-") = (0, false)
    ∧ get_cell_value (.text "1,234.50") = (2469 / 2, false)
    ∧ (∀ s : String, cleanCell s ≠ [] → cleanCell s ≠ ['-'] →
        parseDecimal (cleanCell s) = none → get_cell_value (.text s) = (0, true)) := by
  refine ⟨rfl, fun q => rfl, by decide, by decide, ?_, ?_⟩
  · have h1 : get_cell_value (.text "1,234.50")
        = (((1234 : ℕ) : ℚ) + ((50 : ℕ) : ℚ) / 10 ^ 2, false) := rfl
    rw [h1]
    norm_num
  · intro s h1 h2 h3
    simp only [get_cell_value, h3]
    rw [if_neg]
    push_neg
    exact ⟨h1, h2⟩

/-- C4 witness: the unparseable text `"abc"` coerces to 0 with a
recorded warning. -/
theorem C4_cell_coercion_witness :
    get_cell_value (.text "abc") = (0, true) :=
  C4_cell_coercion.2.2.2.2.2 "abc" (by decide) (by decide) (by decide)

/-- C7: after the primary and fallback passes, column mapping fails
exactly when some of the four logical columns are unresolved, the error
names exactly the unresolved subset, and otherwise all four columns are
returned. -/
theorem C7_validate_columns (c : Columns) :
    (missingColumns c = [] →
      ∃ a b r k, c = ⟨some a, some b, some r, some k⟩
        ∧ validate_columns c = .ok ⟨a, b, r, k⟩)
    ∧ (missingColumns c ≠ [] →
        validate_columns c = .error (.columnsMissing (missingColumns c)))
    ∧ (∀ n, n ∈ missingColumns c ↔
        (n = "REAL_BULAN_INI" ∧ c.realBulanIni = none)
        ∨ (n = "RKAP_BULAN_INI" ∧ c.rkapBulanIni = none)
        ∨ (n = "REAL_SD" ∧ c.realSd = none)
        ∨ (n = "RKAP_SD" ∧ c.rkapSd = none)) := by
  obtain ⟨a, b, r, k⟩ := c
  cases a <;> cases b <;> cases r <;> cases k <;>
    simp [missingColumns, validate_columns]

/-- C7 witness: with budget_month (`RKAP_BULAN_INI`) unresolved and the
other three columns resolved, mapping fails naming exactly that
column. -/
theorem C7_validate_columns_witness :
    validate_columns ⟨some 5, none, some 9, some 10⟩
      = .error (.columnsMissing ["RKAP_BULAN_INI"]) := by
  have h := (C7_validate_columns ⟨some 5, none, some 9, some 10⟩).2.1 (by decide)
  rw [(by decide :
    missingColumns ⟨some 5, none, some 9, some 10⟩ = ["RKAP_BULAN_INI"])] at h
  exact h

/-- C1 counterexample: with config keys `A`, `B` (data codes `K1`,
`K2`), a batch containing both codes, and expected set `{A}` alone,
`validate_upload` computes processed_companies = 2 — strictly more than
the 1-element expected set (the claimed `|expected ∩ present| = 1`) —
and coverage_percent = 200 > 100: the code counts every distinct
recognized unit present in the batch, not the intersection with the
expected set. -/
theorem C1_counterexample :
    (validate_upload cfgTwo ["K1", "K2"] ["A"]).processed_companies = 2
    ∧ (["A"] : List String).length = 1
    ∧ (validate_upload cfgTwo ["K1", "K2"] ["A"]).company_coverage_percent = 200
    ∧ 100 < (validate_upload cfgTwo ["K1", "K2"] ["A"]).company_coverage_percent := by
  have h : (validate_company_coverage cfgTwo ["K1", "K2"] ["A"]).1 = 2 := by decide
  have hc : (validate_upload cfgTwo ["K1", "K2"] ["A"]).company_coverage_percent = 200 := by
    simp only [validate_upload, h, List.length_cons, List.length_nil]
    norm_num
  exact ⟨by decide, by decide, hc, by rw [hc]; norm_num⟩

/-- C1 (amended): `matched_count` (processed_companies) is the number of
distinct recognized unit codes present in the batch — which can exceed
the size of the expected set, so coverage_percent can exceed 100 —
`missing` is the ascending-sorted, duplicate-free set difference
expected − present, and coverage_percent is matched_count divided by
the length of the expected list times 100, with 0 when that list is
empty. -/
theorem C1_coverage_characterization (cfg : List Perusahaan)
    (batch expected : List String) :
    (validate_upload cfg batch expected).processed_companies
      = (processedKeys cfg batch).length
    ∧ (validate_upload cfg batch expected).missing_companies.Sorted (· ≤ ·)
    ∧ (validate_upload cfg batch expected).missing_companies.Nodup
    ∧ (∀ k, k ∈ (validate_upload cfg batch expected).missing_companies ↔
        k ∈ expected ∧ k ∉ processedKeys cfg batch)
    ∧ (validate_upload cfg batch expected).company_coverage_percent =
        (if expected.length = 0 then 0
         else ((processedKeys cfg batch).length : ℚ) / expected.length * 100) := by
  refine ⟨rfl, ?_, ?_, ?_, ?_⟩
  · exact List.sorted_insertionSort _ _
  · exact (List.perm_insertionSort _ _).nodup_iff.mpr
      ((List.nodup_dedup expected).filter _)
  · intro k
    show k ∈ List.insertionSort _ _ ↔ _
    rw [List.mem_insertionSort, List.mem_filter, List.mem_dedup]
    simp
  · have e : (validate_upload cfg batch expected).company_coverage_percent
        = (if expected.length > 0
           then ((processedKeys cfg batch).length : ℚ) / expected.length * 100
           else 0) := rfl
    rw [e]
    rcases Nat.eq_zero_or_pos expected.length with h | h
    · simp [h]
    · rw [if_pos h, if_neg (by omega)]

/-- C3 counterexample: a computed coverage percentage of 200 (reachable:
two recognized units present, one expected) is classified `'success'`
(Accepted) although it differs from 100 — refuting "Accepted exactly
when coverage_percent == 100". -/
theorem C3_counterexample :
    (validate_upload cfgTwo ["K1", "K2"] ["A"]).status = "success"
    ∧ (validate_upload cfgTwo ["K1", "K2"] ["A"]).company_coverage_percent ≠ 100 := by
  have h : (validate_company_coverage cfgTwo ["K1", "K2"] ["A"]).1 = 2 := by decide
  constructor
  · simp only [validate_upload, h, List.length_cons, List.length_nil, determine_status]
    norm_num
  · simp only [validate_upload, h, List.length_cons, List.length_nil]
    norm_num

/-- C3 (amended): the status is Rejected (`'failed'`) when
coverage < 90, Degraded (`'warning'`) when 90 ≤ coverage < 100, and
Accepted (`'success'`) when coverage ≥ 100 (not only at exactly 100,
since computed coverage can exceed 100); in particular 9 of 10 expected
units gives coverage 90 and Degraded, 10 of 10 gives Accepted, and 8 of
10 gives Rejected. -/
theorem C3_status_policy :
    (∀ c : ℚ, (c < 90 → determine_status c = "failed")
      ∧ (90 ≤ c → c < 100 → determine_status c = "warning")
      ∧ (100 ≤ c → determine_status c = "success"))
    ∧ ((validate_upload cfgTen batchNine expectedTen).company_coverage_percent = 90
        ∧ (validate_upload cfgTen batchNine expectedTen).status = "warning")
    ∧ ((validate_upload cfgTen batchTen expectedTen).company_coverage_percent = 100
        ∧ (validate_upload cfgTen batchTen expectedTen).status = "success")
    ∧ ((validate_upload cfgTen batchEight expectedTen).company_coverage_percent = 80
        ∧ (validate_upload cfgTen batchEight expectedTen).status = "failed") := by
  have hl : expectedTen.length = 10 := by decide
  have h9 : (validate_company_coverage cfgTen batchNine expectedTen).1 = 9 := by decide
  have h10 : (validate_company_coverage cfgTen batchTen expectedTen).1 = 10 := by decide
  have h8 : (validate_company_coverage cfgTen batchEight expectedTen).1 = 8 := by decide
  refine ⟨fun c => ⟨fun h => if_pos h, fun h1 h2 => ?_, fun h => ?_⟩, ⟨?_, ?_⟩, ⟨?_, ?_⟩, ⟨?_, ?_⟩⟩
  · rw [determine_status, if_neg (by linarith), if_pos h2]
  · rw [determine_status, if_neg (by linarith), if_neg (by linarith)]
  · simp only [validate_upload, h9, hl]
    norm_num
  · simp only [validate_upload, h9, hl, determine_status]
    norm_num
  · simp only [validate_upload, h10, hl]
    norm_num
  · simp only [validate_upload, h10, hl, determine_status]
    norm_num
  · simp only [validate_upload, h8, hl]
    norm_num
  · simp only [validate_upload, h8, hl, determine_status]
    norm_num

/-- C3 witness: the three threshold branches of the status policy at
concrete coverage values 50, 95 and 100. -/
theorem C3_status_policy_witness :
    determine_status 50 = "failed"
    ∧ determine_status 95 = "warning"
    ∧ determine_status 100 = "success" :=
  ⟨(C3_status_policy.1 50).1 (by norm_num),
   (C3_status_policy.1 95).2.1 (by norm_num) (by norm_num),
   (C3_status_policy.1 100).2.2 (by norm_num)⟩

/-! ## Helper lemmas about the column scans -/

/-- The fallback loop keeps the first `REAL` and first `RKAP` column of
the scanned list (the early break does not change the result). -/
theorem findNextCols_spec (th : List (Nat × VType)) :
    ∀ (cols : List Nat) (r k : Option Nat),
      findNextCols th cols r k
        = (r <|> cols.find? (fun c => th.lookup c = some VType.REAL),
           k <|> cols.find? (fun c => th.lookup c = some VType.RKAP)) := by
  intro cols
  induction cols with
  | nil => intro r k; simp [findNextCols]
  | cons c cs ih =>
    intro r k
    by_cases hR : th.lookup c = some VType.REAL
    · have hK : ¬ th.lookup c = some VType.RKAP := by simp [hR]
      cases r <;> cases k <;>
        simp [findNextCols, hR, hK, ih, List.find?_cons_of_pos, List.find?_cons_of_neg]
    · by_cases hK : th.lookup c = some VType.RKAP
      · cases r <;> cases k <;>
          simp [findNextCols, hR, hK, ih, List.find?_cons_of_pos, List.find?_cons_of_neg]
      · cases r <;> cases k <;>
          simp [findNextCols, hR, hK, ih, List.find?_cons_of_pos, List.find?_cons_of_neg]

/-- Overwriting fold: the `REAL` slot ends up holding the last `REAL`
column of the scanned list (first of the reversed list), else the
initial value. -/
theorem foldl_rangeStep_real (th : List (Nat × VType)) :
    ∀ (cols : List Nat) (acc : RangeCols),
      (cols.foldl (rangeStep th) acc).real
        = (cols.reverse.find? (fun c => th.lookup c = some VType.REAL)).or acc.real := by
  intro cols
  induction cols with
  | nil => intro acc; simp
  | cons c cs ih =>
    intro acc
    rw [List.foldl_cons, ih, List.reverse_cons, List.find?_append]
    rcases h : cs.reverse.find? (fun c => th.lookup c = some VType.REAL) with _ | v
    · simp only [Option.none_or]
      rcases hl : th.lookup c with _ | tv
      · simp [rangeStep, hl]
      · cases tv <;> simp [rangeStep, hl]
    · simp [Option.or]

/-- Overwriting fold: the `RKAP` slot ends up holding the last `RKAP`
column of the scanned list, else the initial value. -/
theorem foldl_rangeStep_rkap (th : List (Nat × VType)) :
    ∀ (cols : List Nat) (acc : RangeCols),
      (cols.foldl (rangeStep th) acc).rkap
        = (cols.reverse.find? (fun c => th.lookup c = some VType.RKAP)).or acc.rkap := by
  intro cols
  induction cols with
  | nil => intro acc; simp
  | cons c cs ih =>
    intro acc
    rw [List.foldl_cons, ih, List.reverse_cons, List.find?_append]
    rcases h : cs.reverse.find? (fun c => th.lookup c = some VType.RKAP) with _ | v
    · simp only [Option.none_or]
      rcases hl : th.lookup c with _ | tv
      · simp [rangeStep, hl]
      · cases tv <;> simp [rangeStep, hl]
    · simp [Option.or]

/-- On a strictly descending list, `find?` returns the maximum element
satisfying the predicate. -/
theorem findDescMax {p : Nat → Bool} :
    ∀ {l : List Nat} {c : Nat}, l.Pairwise (· > ·) → c ∈ l → p c = true →
      (∀ x ∈ l, p x = true → x ≤ c) → l.find? p = some c := by
  intro l
  induction l with
  | nil => intro c _ hc; cases hc
  | cons h t ih =>
    intro c hs hc hpc hmax
    by_cases hph : p h = true
    · rcases List.mem_cons.mp hc with rfl | hct
      · exact List.find?_cons_of_pos _ hph
      · exact absurd (hmax h (List.mem_cons_self h t) hph)
          (by have := (List.pairwise_cons.mp hs).1 c hct; omega)
    · rw [List.find?_cons_of_neg _ (by simpa using hph)]
      rcases List.mem_cons.mp hc with rfl | hct
      · exact absurd hpc hph
      · exact ih (List.pairwise_cons.mp hs).2 hct hpc
          (fun x hx => hmax x (List.mem_cons_of_mem _ hx))

/-- C6: when no Cumulative (`s.d.`) descriptor matches, the mapper scans
the value-type map forward from the column after the Month descriptor's
end column up to the highest classified column, taking the first
Actual-classified (`REAL`) column as actual_cumulative and the first
Budget-classified (`RKAP`) column as budget_cumulative, skipping
unclassified columns. -/
theorem C6_cumulative_fallback (bulan : PeriodHeader) (th : List (Nat × VType)) :
    (map_columns bulan none th).realSd
      = (fallbackCols th bulan.endCol).find? (fun c => th.lookup c = some VType.REAL)
    ∧ (map_columns bulan none th).rkapSd
      = (fallbackCols th bulan.endCol).find? (fun c => th.lookup c = some VType.RKAP)
    ∧ (∀ c, c ∈ fallbackCols th bulan.endCol ↔
        bulan.endCol + 1 ≤ c ∧ c ≤ maxKey th) := by
  refine ⟨?_, ?_, ?_⟩
  · show (findNextCols th (fallbackCols th bulan.endCol) none none).1 = _
    rw [findNextCols_spec]
    simp
  · show (findNextCols th (fallbackCols th bulan.endCol) none none).2 = _
    rw [findNextCols_spec]
    simp
  · intro c
    rw [fallbackCols, List.mem_range']
    constructor
    · rintro ⟨i, hi, rfl⟩
      omega
    · rintro ⟨h1, h2⟩
      exact ⟨c - (bulan.endCol + 1), by omega, by omega⟩

/-- C10: when a matched descriptor's column range contains several
columns classified with the same value type, the range intersection
records the highest-numbered (last-scanned) such column, discarding the
earlier ones. -/
theorem C10_last_duplicate_wins :
    (∀ (th : List (Nat × VType)) (s e c : Nat),
      c ∈ List.range' s (e + 1 - s) → th.lookup c = some VType.REAL →
      (∀ x ∈ List.range' s (e + 1 - s), th.lookup x = some VType.REAL → x ≤ c) →
      (get_columns_in_range th s e).real = some c)
    ∧ (∀ (th : List (Nat × VType)) (s e c : Nat),
      c ∈ List.range' s (e + 1 - s) → th.lookup c = some VType.RKAP →
      (∀ x ∈ List.range' s (e + 1 - s), th.lookup x = some VType.RKAP → x ≤ c) →
      (get_columns_in_range th s e).rkap = some c) := by
  constructor
  · intro th s e c hc hl hmax
    show ((List.range' s (e + 1 - s)).foldl (rangeStep th) ⟨none, none⟩).real = some c
    rw [foldl_rangeStep_real]
    rw [findDescMax (List.pairwise_reverse.mpr ((List.pairwise_lt_range' s _).imp id))
      (List.mem_reverse.mpr hc) (by simp [hl])
      (fun x hx hp => hmax x (List.mem_reverse.mp hx) (by simpa using hp))]
    rfl
  · intro th s e c hc hl hmax
    show ((List.range' s (e + 1 - s)).foldl (rangeStep th) ⟨none, none⟩).rkap = some c
    rw [foldl_rangeStep_rkap]
    rw [findDescMax (List.pairwise_reverse.mpr ((List.pairwise_lt_range' s _).imp id))
      (List.mem_reverse.mpr hc) (by simp [hl])
      (fun x hx hp => hmax x (List.mem_reverse.mp hx) (by simpa using hp))]
    rfl

/-- A type-header map with duplicate classifications: `REAL` at both
columns 5 and 6, `RKAP` at both columns 7 and 8. -/
def thDup : List (Nat × VType) :=
  [(5, .REAL), (6, .REAL), (7, .RKAP), (8, .RKAP)]

/-- C10 witness: over the range 5–8 with `REAL` at columns 5 and 6 and
`RKAP` at columns 7 and 8, the intersection records columns 6 and 8. -/
theorem C10_last_duplicate_wins_witness :
    (get_columns_in_range thDup 5 8).real = some 6
    ∧ (get_columns_in_range thDup 5 8).rkap = some 8 :=
  ⟨C10_last_duplicate_wins.1 thDup 5 8 6 (by decide) (by decide) (by decide),
   C10_last_duplicate_wins.2 thDup 5 8 8 (by decide) (by decide) (by decide)⟩

/-- C8: month extraction picks, among all month-abbreviation
occurrences in the header text, the one at the lowest character offset
(the found list is stable-sorted by first-occurrence position and the
head taken), and year extraction returns the value of the leftmost
occurrence of the `20xx` digit pattern, regardless of surrounding
text. -/
theorem C8_first_occurrence_wins :
    (∀ (t : List Char) (m p : Nat),
      (m, p) ∈ foundMonths t →
      (∀ q ∈ foundMonths t, p ≤ q.2) →
      (∀ q ∈ foundMonths t, q.2 = p → q = (m, p)) →
      extract_month t = some m)
    ∧ (∀ (t : List Char) (i y : Nat),
      yearAt (t.drop i) = some y →
      (∀ j, j < i → yearAt (t.drop j) = none) →
      extract_year t = some y) := by
  constructor
  · intro t m p hmem hmin huniq
    haveI : IsTotal (Nat × Nat) (fun a b => a.2 ≤ b.2) := ⟨fun a b => le_total a.2 b.2⟩
    haveI : IsTrans (Nat × Nat) (fun a b => a.2 ≤ b.2) :=
      ⟨fun _ _ _ hab hbc => le_trans hab hbc⟩
    have hs := List.sorted_insertionSort (fun (a b : Nat × Nat) => a.2 ≤ b.2) (foundMonths t)
    rcases hl : (foundMonths t).insertionSort (fun a b => a.2 ≤ b.2) with _ | ⟨x, xs⟩
    · exact absurd ((List.mem_insertionSort _).mpr hmem) (by rw [hl]; exact List.not_mem_nil _)
    · have hx : x ∈ foundMonths t :=
        (List.mem_insertionSort _).mp (hl ▸ List.mem_cons_self x xs)
      have hmp : (m, p) ∈ x :: xs := hl ▸ (List.mem_insertionSort _).mpr hmem
      rw [hl] at hs
      have hxm : x = (m, p) := by
        rcases List.mem_cons.mp hmp with heq | hmem2
        · exact heq.symm
        · exact huniq x hx (le_antisymm ((List.pairwise_cons.mp hs).1 (m, p) hmem2) (hmin x hx))
      rw [extract_month, hl, hxm]
  · intro t
    induction t with
    | nil =>
      intro i y hy _
      rw [List.drop_nil] at hy
      simp [yearAt] at hy
    | cons c ts ih =>
      intro i y hy hnone
      cases i with
      | zero =>
        rw [List.drop_zero] at hy
        simp [extract_year, hy]
      | succ i' =>
        have h0 : yearAt (c :: ts) = none := by
          have := hnone 0 (Nat.succ_pos i')
          simpa using this
        have hd : yearAt (ts.drop i') = some y := by
          rwa [List.drop_succ_cons] at hy
        have hn : ∀ j, j < i' → yearAt (ts.drop j) = none := by
          intro j hj
          have := hnone (j + 1) (by omega)
          rwa [List.drop_succ_cons] at this
        simp [extract_year, h0]
        exact ih i' y hd hn

/-- C8 witness: in the text `"feb jan 2024"`, which contains two month
abbreviations, the month extracted is February (`feb` occurs at offset
0, before `jan` at offset 4), and the year extracted is 2024 (the
leftmost `20xx` window starts at offset 8). -/
theorem C8_first_occurrence_wins_witness :
    extract_month "feb jan 2024".data = some 2
    ∧ extract_year "feb jan 2024".data = some 2024 :=
  ⟨C8_first_occurrence_wins.1 "feb jan 2024".data 2 0 (by decide) (by decide) (by decide),
   C8_first_occurrence_wins.2 "feb jan 2024".data 8 2024 (by decide) (by decide)⟩

/-- C5 counterexample: on a worksheet whose only recognized period
header is Cumulative-kind (`s.d.`), requesting (2024, 12) fails with a
period-not-found error whose list of available Month-kind periods is
empty — refuting the parenthetical "listing at least one available
period". -/
theorem C5_counterexample :
    detect_columns sheetCumulativeOnly 2024 12 = .error (.periodNotFound []) := by
  decide

/-- C5 (amended): if no Month-kind (`bulan`) descriptor matches the
target exactly, detection fails with a period-not-found error carrying
the (year, month, label) of every Month-kind descriptor — a list that
is empty when the worksheet has only Cumulative-kind headers; the
selection never yields a descriptor for a different period, the first
matching descriptor in list order is selected, and the descriptor list
produced by the header parser is in ascending start-column order. -/
theorem C5_period_not_found :
    (∀ (s : Sheet) (ty tm : Nat) (ps : List PeriodHeader) (th : List (Nat × VType)),
      parse_period_header s = .ok ps → parse_type_header s = .ok th →
      ps.find? (isBulanMatch ty tm) = none →
      detect_columns s ty tm = .error (.periodNotFound (availablePeriods ps)))
    ∧ (∀ (ps : List PeriodHeader) (y m : Nat) (txt : String),
        (y, m, txt) ∈ availablePeriods ps ↔
          ∃ p ∈ ps, p.isSd = false ∧ p.year = y ∧ p.month = m ∧ p.text = txt)
    ∧ (∀ (ps : List PeriodHeader) (ty tm : Nat) (p : PeriodHeader),
        ps.find? (isBulanMatch ty tm) = some p →
        p.year = ty ∧ p.month = tm ∧ p.isSd = false)
    ∧ (∀ (ty tm : Nat) (l₁ : List PeriodHeader) (p : PeriodHeader) (l₂ : List PeriodHeader),
        isBulanMatch ty tm p = true →
        (∀ q ∈ l₁, isBulanMatch ty tm q = false) →
        (l₁ ++ p :: l₂).find? (isBulanMatch ty tm) = some p)
    ∧ (∀ (s : Sheet) (ps : List PeriodHeader),
        parse_period_header s = .ok ps →
        ps.Pairwise (fun a b => a.startCol ≤ b.startCol)) := by
  refine ⟨?_, ?_, ?_, ?_, ?_⟩
  · intro s ty tm ps th h1 h2 h3
    simp only [detect_columns, h1, h2, h3]
  · intro ps y m txt
    simp only [availablePeriods, List.mem_filterMap]
    constructor
    · rintro ⟨p, hp, hf⟩
      rcases hsd : p.isSd with _ | _
      · rw [if_neg (by simp [hsd])] at hf
        injection hf with hf'
        rw [Prod.mk.injEq, Prod.mk.injEq] at hf'
        exact ⟨p, hp, hsd, hf'.1, hf'.2.1, hf'.2.2⟩
      · simp [hsd] at hf
    · rintro ⟨p, hp, hsd, hy, hm, ht⟩
      exact ⟨p, hp, by simp [hsd, hy, hm, ht]⟩
  · intro ps ty tm p h
    have := List.find?_some h
    simpa [isBulanMatch] using this
  · intro ty tm l₁ p l₂ hp hl₁
    rw [List.find?_append, List.find?_eq_none.mpr (fun q hq => by simp [hl₁ q hq]),
      Option.none_or, List.find?_cons_of_pos _ hp]
  · intro s ps h
    haveI : IsTotal PeriodHeader (fun a b => a.startCol ≤ b.startCol) :=
      ⟨fun a b => le_total a.startCol b.startCol⟩
    haveI : IsTrans PeriodHeader (fun a b => a.startCol ≤ b.startCol) :=
      ⟨fun _ _ _ hab hbc => le_trans hab hbc⟩
    simp only [parse_period_header] at h
    split at h
    · exact absurd h (by simp)
    · injection h with h'
      rw [← h']
      exact List.sorted_insertionSort _ _

/-- C5 witness: requesting November 2024 on the December-only worksheet
fails with a period-not-found error listing the one available period
(2024, 12). -/
theorem C5_period_not_found_witness :
    detect_columns sheetDesember 2024 11
      = .error (.periodNotFound [(2024, 12, "Desember 2024")]) := by
  have h := C5_period_not_found.1 sheetDesember 2024 11
    [⟨false, "Desember 2024", 5, 6, 12, 2024⟩]
    [(5, .REAL), (6, .RKAP), (9, .REAL), (10, .RKAP)]
    (by decide) (by decide) (by decide)
  rw [(by decide : availablePeriods [(⟨false, "Desember 2024", 5, 6, 12, 2024⟩ : PeriodHeader)]
    = [(2024, 12, "Desember 2024")])] at h
  exact h

end PTPN
